import Mathlib

/-
  Verification of src/lib/bdev/part.c, the SPDK common code for
  partition-like virtual bdevs.  Pure functions of the C file are
  translated to Lean functions; external collaborators (the bdev
  framework submit calls, the DIF primitives, the threading runtime)
  are either parameters of the model or explicit event traces.
  Machine integers are modelled as Nat with explicit mod 2^32 where a
  C conversion from uint64_t to uint32_t truncates.
-/

/-- 2^32, the modulus of a C uint32_t. -/
def U32 : Nat := 4294967296

/-- The SPDK_BDEV_IO_STATUS_FAILED status value from the bdev framework
headers, returned synchronously by spdk_bdev_part_submit_request_ext on
write-remap failure and on an unknown request type. -/
def SPDK_BDEV_IO_STATUS_FAILED : Int := -1

/-- The enum spdk_bdev_io_type of the bdev framework header (all the
values a request can carry, including values part.c does not handle). -/
inductive SpdkBdevIoType
| invalid
| read
| write
| unmap
| flush
| reset
| nvme_admin
| nvme_io_cmd
| nvme_io_md
| write_zeroes
| zcopy
| get_zone_info
| zone_management
| zone_append
| compare
| compare_and_write
| abort
| seek_hole
| seek_data
| copy
| nvme_iov_md
deriving DecidableEq

/-- The fields of a struct spdk_bdev_io that part.c reads when forwarding:
request type, partition-relative offset, block count, the copy source
offset, whether a metadata buffer is attached, whether the dif check
flags include SPDK_DIF_FLAGS_REFTAG_CHECK, and the zcopy populate flag. -/
structure BdevIoRec where
  ioType : SpdkBdevIoType
  offset_blocks : Nat
  num_blocks : Nat
  src_offset_blocks : Nat
  md_buf : Bool
  dif_reftag_check : Bool
  zcopy_populate : Bool
deriving DecidableEq

/-- The operation issued to the underlying (base) device by
spdk_bdev_part_submit_request_ext, with the offsets it carries. -/
inductive BaseOp
| readv (offset_blocks num_blocks : Nat)
| writev (offset_blocks num_blocks : Nat)
| write_zeroes (offset_blocks num_blocks : Nat)
| unmap (offset_blocks num_blocks : Nat)
| flush (offset_blocks num_blocks : Nat)
| reset
| abort
| zcopy_start (offset_blocks num_blocks : Nat) (populate : Bool)
| comparev (offset_blocks num_blocks : Nat)
| comparev_with_md (offset_blocks num_blocks : Nat)
| comparev_and_writev (offset_blocks num_blocks : Nat)
| copy (dst_offset_blocks src_offset_blocks num_blocks : Nat)
deriving DecidableEq

/-- Result record of bdev_part_remap_dif: the return code, the offset the
DIF context was seeded with (the value passed to spdk_dif_ctx_init, none
when the reftag check flag is clear and the function returns 0 without
touching the DIF primitives), and the remap target passed to
spdk_dif_ctx_set_remapped_init_ref_tag (none when context init failed). -/
structure DifRemapResult where
  rc : Int
  initSeed : Option Nat
  remapTarget : Option Nat
deriving DecidableEq

/-- bdev_part_remap_dif (part.c lines 196-241).  The function takes the
original and remapped offsets as uint32_t parameters.  The external DIF
primitives are parameters of the model: ctxInitRc gives the return code
of spdk_dif_ctx_init for a given seed offset, remapRc the return code of
spdk_dif_remap_ref_tag / spdk_dix_remap_ref_tag for given seed and
target. -/
def bdev_part_remap_dif (ctxInitRc : Nat → Int) (remapRc : Nat → Nat → Int)
    (dif_reftag_check : Bool) (offset remapped_offset : Nat) : DifRemapResult :=
  if dif_reftag_check = false then
    { rc := 0, initSeed := none, remapTarget := none }
  else if ctxInitRc offset ≠ 0 then
    { rc := ctxInitRc offset, initSeed := some offset, remapTarget := none }
  else
    { rc := remapRc offset remapped_offset, initSeed := some offset,
      remapTarget := some remapped_offset }

/-- Outcome of spdk_bdev_part_submit_request_ext: the operation issued to
the base device (none when the function returned without submitting
anything), the int return value, and the result of the
bdev_part_remap_dif call made on the write path (none when no remap call
was made). -/
structure SubmitOutcome where
  issued : Option BaseOp
  ret : Int
  difCall : Option DifRemapResult
deriving DecidableEq

/-- spdk_bdev_part_submit_request_ext (part.c lines 290-396).  baseRc
gives the return code of the external spdk_bdev_*_blocks submit call for
the issued operation; part_offset_blocks is part->internal.offset_blocks.
Offsets passed to bdev_part_remap_dif are reduced mod 2^32 because the C
prototype takes them as uint32_t. -/
def spdk_bdev_part_submit_request_ext_m
    (ctxInitRc : Nat → Int) (remapRc : Nat → Nat → Int) (baseRc : BaseOp → Int)
    (part_offset_blocks : Nat) (bio : BdevIoRec) : SubmitOutcome :=
  let offset := bio.offset_blocks
  let remapped_offset := offset + part_offset_blocks
  match bio.ioType with
  | .read =>
      let op := BaseOp.readv remapped_offset bio.num_blocks
      { issued := some op, ret := baseRc op, difCall := none }
  | .write =>
      let r := bdev_part_remap_dif ctxInitRc remapRc bio.dif_reftag_check
                 (offset % U32) (remapped_offset % U32)
      if r.rc ≠ 0 then
        { issued := none, ret := SPDK_BDEV_IO_STATUS_FAILED, difCall := some r }
      else
        let op := BaseOp.writev remapped_offset bio.num_blocks
        { issued := some op, ret := baseRc op, difCall := some r }
  | .write_zeroes =>
      let op := BaseOp.write_zeroes remapped_offset bio.num_blocks
      { issued := some op, ret := baseRc op, difCall := none }
  | .unmap =>
      let op := BaseOp.unmap remapped_offset bio.num_blocks
      { issued := some op, ret := baseRc op, difCall := none }
  | .flush =>
      let op := BaseOp.flush remapped_offset bio.num_blocks
      { issued := some op, ret := baseRc op, difCall := none }
  | .reset =>
      { issued := some BaseOp.reset, ret := baseRc BaseOp.reset, difCall := none }
  | .abort =>
      { issued := some BaseOp.abort, ret := baseRc BaseOp.abort, difCall := none }
  | .zcopy =>
      let op := BaseOp.zcopy_start remapped_offset bio.num_blocks bio.zcopy_populate
      { issued := some op, ret := baseRc op, difCall := none }
  | .compare =>
      if bio.md_buf = false then
        let op := BaseOp.comparev remapped_offset bio.num_blocks
        { issued := some op, ret := baseRc op, difCall := none }
      else
        let op := BaseOp.comparev_with_md remapped_offset bio.num_blocks
        { issued := some op, ret := baseRc op, difCall := none }
  | .compare_and_write =>
      let op := BaseOp.comparev_and_writev remapped_offset bio.num_blocks
      { issued := some op, ret := baseRc op, difCall := none }
  | .copy =>
      let remapped_src_offset := bio.src_offset_blocks + part_offset_blocks
      let op := BaseOp.copy remapped_offset remapped_src_offset bio.num_blocks
      { issued := some op, ret := baseRc op, difCall := none }
  | _ =>
      { issued := none, ret := SPDK_BDEV_IO_STATUS_FAILED, difCall := none }

/-- The request types handled by the switch of
spdk_bdev_part_submit_request_ext; everything else hits the default
branch and is rejected synchronously. -/
def handledIoType : SpdkBdevIoType → Bool
| .read | .write | .write_zeroes | .unmap | .flush | .reset | .abort
| .zcopy | .compare | .compare_and_write | .copy => true
| _ => false

/-- Outcome of bdev_part_complete_io: the success flag delivered to the
completion path, whether the stored split callback was used instead of
the default completion, whether the zcopy buffer was copied back, whether
spdk_bdev_free_io was called on the base I/O, and the result of the
bdev_part_remap_dif call made on the read path (none when none was
made). -/
structure CompleteOutcome where
  success_out : Bool
  usedStoredCb : Bool
  completedWithBaseStatus : Bool
  zcopyBufSet : Bool
  freed : Bool
  difCall : Option DifRemapResult
deriving DecidableEq

/-- bdev_part_complete_io (part.c lines 243-277).  base_offset_blocks is
the completed base I/O offset (already remapped), part_io_offset_blocks
the original partition-relative offset stored in the forwarded request;
both are uint64_t in C and are truncated mod 2^32 when stored into the
local uint32_t variables that are passed to bdev_part_remap_dif. -/
def bdev_part_complete_io_m (ctxInitRc : Nat → Int) (remapRc : Nat → Nat → Int)
    (ioType : SpdkBdevIoType) (base_offset_blocks part_io_offset_blocks : Nat)
    (dif_reftag_check : Bool) (success : Bool) (split : Bool) : CompleteOutcome :=
  let step :
      Bool × Option DifRemapResult × Bool :=
    match ioType with
    | .read =>
        if success then
          let r := bdev_part_remap_dif ctxInitRc remapRc dif_reftag_check
                     (base_offset_blocks % U32) (part_io_offset_blocks % U32)
          (if r.rc ≠ 0 then false else success, some r, false)
        else (success, none, false)
    | .zcopy => (success, none, true)
    | _ => (success, none, false)
  { success_out := step.1,
    usedStoredCb := split,
    completedWithBaseStatus := !split,
    zcopyBufSet := step.2.2,
    freed := true,
    difCall := step.2.1 }

/-- bdev_part_io_type_supported (part.c lines 142-162).  baseSupported is
the base bdev function-table capability query. -/
def bdev_part_io_type_supported_m (baseSupported : SpdkBdevIoType → Bool)
    (ioType : SpdkBdevIoType) : Bool :=
  match ioType with
  | .nvme_admin | .nvme_io_cmd | .nvme_io_md => false
  | _ => baseSupported ioType

/-- The shared base lifecycle state tracked across partition
constructions and destruction completions: reference count (a uint32 in
C), the claimed flag, whether the module claim on the base bdev is held,
whether the underlying descriptor is still open, how many times
spdk_bdev_close has run on it, and whether the base record was freed. -/
structure BaseLife where
  ref : Nat
  claimed : Bool
  moduleClaimHeld : Bool
  descOpen : Bool
  closeCount : Nat
  baseFreed : Bool
deriving DecidableEq

/-- The base state right after spdk_bdev_part_base_construct_ext opened
the descriptor: ref = 0, claimed = false (part.c lines 475-506). -/
def baseLifeInitial : BaseLife :=
  { ref := 0, claimed := false, moduleClaimHeld := false,
    descOpen := true, closeCount := 0, baseFreed := false }

/-- Effect of one successful spdk_bdev_part_construct_ext on the base:
the reference count is incremented (part.c line 636) and the claim is
taken if not already held (lines 639-652). -/
def construct_success_base (s : BaseLife) : BaseLife :=
  { s with ref := s.ref + 1, claimed := true, moduleClaimHeld := true }

/-- bdev_part_free_cb (part.c lines 96-118), the destruction completion
callback: decrements the reference count (uint32 predecrement, so 0
wraps to 2^32 - 1) and, exactly when it reaches zero, releases the
module claim and runs spdk_bdev_part_base_free, which closes the open
descriptor and frees the base record. -/
def bdev_part_free_cb_m (s : BaseLife) : BaseLife :=
  let r := if s.ref = 0 then U32 - 1 else s.ref - 1
  if r = 0 then
    { ref := 0, claimed := s.claimed, moduleClaimHeld := false,
      descOpen := false,
      closeCount := s.closeCount + (if s.descOpen then 1 else 0),
      baseFreed := true }
  else
    { s with ref := r }

/-- Iterate a state transformer n times. -/
def iterN (f : BaseLife → BaseLife) : Nat → BaseLife → BaseLife
| 0, s => s
| n + 1, s => iterN f n (f s)

/-- Events performed during spdk_bdev_part_base_free and the message it
may dispatch: the inline close (caller on the affinity thread), the
dispatch of the close message, the execution of the dispatched close on
the affinity thread, the caller-supplied free callback, and the free of
the base record. -/
inductive FreeEv
| closeInline
| sendCloseMsg
| closeExec
| freeCb
| releaseRecord
deriving DecidableEq

/-- All ways of inserting one event into a list. -/
def insertions (x : FreeEv) : List FreeEv → List (List FreeEv)
| [] => [[x]]
| e :: es => (x :: e :: es) :: (insertions x es).map (fun t => e :: t)

/-- spdk_bdev_part_base_free (part.c lines 77-94) as a set of possible
event traces.  The caller executes: close inline when it runs on the
affinity thread (or no thread was recorded), otherwise it dispatches the
close as a message; then the free callback (when supplied); then the
free of the base record.  The messaging runtime is external: per the
spec it is a fire-and-forget dispatch, so the dispatched close may
execute on the affinity thread at any point after the dispatch, which
the model renders as every insertion of closeExec after sendCloseMsg. -/
def spdk_bdev_part_base_free_traces (hasDesc hasThread sameThread hasFreeFn : Bool) :
    List (List FreeEv) :=
  let tailEvs := (if hasFreeFn then [FreeEv.freeCb] else []) ++ [FreeEv.releaseRecord]
  if hasDesc then
    if hasThread && !sameThread then
      (insertions FreeEv.closeExec tailEvs).map (fun t => FreeEv.sendCloseMsg :: t)
    else
      [FreeEv.closeInline :: tailEvs]
  else
    [tailEvs]

/-- Every freeCb event of the trace is preceded by a completed close
(closeInline or closeExec); the accumulator records whether a close has
been seen so far. -/
def closeBeforeFree : Bool → List FreeEv → Bool
| _, [] => true
| _, FreeEv.closeInline :: es => closeBeforeFree true es
| _, FreeEv.closeExec :: es => closeBeforeFree true es
| seen, FreeEv.freeCb :: es => seen && closeBeforeFree seen es
| seen, _ :: es => closeBeforeFree seen es

/-- Every freeCb event of the trace is preceded by the close being
either dispatched (sendCloseMsg) or performed inline (closeInline). -/
def dispatchBeforeFree : Bool → List FreeEv → Bool
| _, [] => true
| _, FreeEv.sendCloseMsg :: es => dispatchBeforeFree true es
| _, FreeEv.closeInline :: es => dispatchBeforeFree true es
| seen, FreeEv.freeCb :: es => seen && dispatchBeforeFree seen es
| seen, _ :: es => dispatchBeforeFree seen es

/-- No freeCb event occurs after the base record is released; the
accumulator records whether releaseRecord has been seen so far. -/
def noFreeAfterRelease : Bool → List FreeEv → Bool
| _, [] => true
| _, FreeEv.releaseRecord :: es => noFreeAfterRelease true es
| rel, FreeEv.freeCb :: es => !rel && noFreeAfterRelease rel es
| rel, _ :: es => noFreeAfterRelease rel es

/-- Little-endian byte layout of a uint64_t as laid out in memory inside
the base_name struct of spdk_bdev_part_construct_ext. -/
def le64 (x : Nat) : List Nat :=
  (List.range 8).map (fun i => x / 256 ^ i % 256)

/-- The all-zero UUID; spdk_uuid_is_null compares against it. -/
def nullUuid : List Nat := List.replicate 16 0

/-- The bytes of BDEV_PART_NAMESPACE_UUID, the fixed hardcoded namespace
UUID "976b899e-3e1e-4d71-ab69-c2b08e9df8b8" of part.c line 20, parsed by
spdk_uuid_parse into its 16-byte binary form. -/
def bdevPartNamespaceUuidBytes : List Nat :=
  [0x97, 0x6b, 0x89, 0x9e, 0x3e, 0x1e, 0x4d, 0x71,
   0xab, 0x69, 0xc2, 0xb0, 0x8e, 0x9d, 0xf8, 0xb8]

/-- The outcomes of the external calls spdk_bdev_part_construct_ext
makes: whether the two strdup allocations succeed, the return code of
spdk_bdev_module_claim_bdev, and the return code of spdk_bdev_register. -/
structure ConstructEnv where
  nameAllocOk : Bool
  productAllocOk : Bool
  claimRc : Int
  registerRc : Int

/-- Observable outcome of spdk_bdev_part_construct_ext: the return code,
the base reference count and claimed flag after the call, whether the
module claim on the base bdev is held after the call, whether the name
and product-name buffers are still allocated (not freed), the partition
UUID that was set, whether the partition was inserted into the base
tailq, and whether it is still registered as an io device. -/
structure ConstructOut where
  rc : Int
  ref : Nat
  claimed : Bool
  moduleClaimHeld : Bool
  nameLive : Bool
  productLive : Bool
  uuid : Option (List Nat)
  inTailq : Bool
  ioDevRegistered : Bool
deriving DecidableEq

/-- spdk_bdev_part_construct_ext (part.c lines 557-675).  sha1uuid models
the external primitive spdk_uuid_generate_sha1 (namespace bytes, message
bytes, optional resulting UUID bytes, none meaning the primitive
errored).  Modelled from the spec: spdk_uuid_generate_sha1 is repository
code that is not under src; the spec describes it as a namespace-based
deterministic hash of the byte sequence, so it is taken here as an
arbitrary pure function parameter.  baseModuleClaimHeld says whether the
module claim on the base bdev was held before the call; optsUuid is the
uuid field of the effective construct options (the null UUID both when
_opts is NULL and when the caller left the field zero or declared a size
that excludes it). -/
def spdk_bdev_part_construct_ext_m (env : ConstructEnv)
    (sha1uuid : List Nat → List Nat → Option (List Nat))
    (baseRef : Nat) (baseClaimed : Bool) (baseModuleClaimHeld : Bool)
    (baseUuid : List Nat) (offset_blocks num_blocks : Nat)
    (optsUuid : List Nat) : ConstructOut :=
  if env.nameAllocOk = false then
    { rc := -1, ref := baseRef, claimed := baseClaimed,
      moduleClaimHeld := baseModuleClaimHeld, nameLive := false,
      productLive := false, uuid := none, inTailq := false,
      ioDevRegistered := false }
  else if env.productAllocOk = false then
    { rc := -1, ref := baseRef, claimed := baseClaimed,
      moduleClaimHeld := baseModuleClaimHeld, nameLive := false,
      productLive := false, uuid := none, inTailq := false,
      ioDevRegistered := false }
  else
    let uuidRes : Option (List Nat) :=
      if optsUuid ≠ nullUuid then some optsUuid
      else sha1uuid bdevPartNamespaceUuidBytes
             (baseUuid ++ le64 offset_blocks ++ le64 num_blocks)
    match uuidRes with
    | none =>
        { rc := -1, ref := baseRef, claimed := baseClaimed,
          moduleClaimHeld := baseModuleClaimHeld, nameLive := false,
          productLive := false, uuid := none, inTailq := false,
          ioDevRegistered := false }
    | some u =>
        let ref1 := baseRef + 1
        if baseClaimed = false ∧ env.claimRc ≠ 0 then
          { rc := -1, ref := ref1 - 1, claimed := baseClaimed,
            moduleClaimHeld := baseModuleClaimHeld, nameLive := false,
            productLive := false, uuid := some u, inTailq := false,
            ioDevRegistered := false }
        else
          let firstClaimed := baseClaimed = false
          let held1 := if baseClaimed then baseModuleClaimHeld else true
          if env.registerRc = 0 then
            { rc := 0, ref := ref1, claimed := true,
              moduleClaimHeld := held1, nameLive := true,
              productLive := true, uuid := some u, inTailq := true,
              ioDevRegistered := true }
          else
            let ref2 := ref1 - 1
            { rc := env.registerRc, ref := ref2, claimed := if firstClaimed then false else true,
              moduleClaimHeld := if ref2 = 0 then false else held1,
              nameLive := false, productLive := false, uuid := some u,
              inTailq := false, ioDevRegistered := false }

/-- The little-endian uint64_t value stored in bytes 0..7 of a struct
spdk_bdev_part_construct_opts memory image: its opts_size field. -/
def readOptsSizeLE (m : Nat → Nat) : Nat :=
  (List.range 8).foldr (fun i acc => m i + 256 * acc) 0

/-- struct spdk_bdev_part_construct_opts: size-tagged option record;
opts_size is at offset 0 (8 bytes), uuid at offset 8 (16 bytes), total
size 24 as fixed by the static assert of part.c line 551. -/
structure PartConstructOpts where
  opts_size : Nat
  uuid : List Nat
deriving DecidableEq

/-- part_construct_opts_copy (part.c lines 527-555) over a raw memory
image of the source record: the destination is zeroed, its opts_size is
set from the source, and each field is copied only when FIELD_OK holds,
i.e. when the field offset plus its size fits in the declared opts_size
(for uuid: 8 + 16 <= opts_size); otherwise the field stays zero. -/
def part_construct_opts_copy_m (m : Nat → Nat) : PartConstructOpts :=
  let s := readOptsSizeLE m
  { opts_size := s,
    uuid := if 8 + 16 ≤ s then (List.range 16).map (fun i => m (8 + i))
            else List.replicate 16 0 }

/-- C1: for every request forwarded through
spdk_bdev_part_submit_request_ext with original offset o against a
partition whose offset is p, the operation issued to the base device
carries offset o + p for read, write, write-zeroes, unmap, flush,
zero-copy, compare, and compare-and-write; copy translates both the
destination and source offsets by p; reset is issued with no offset. -/
theorem c1_offset_translation
    (ctxInitRc : Nat → Int) (remapRc : Nat → Nat → Int) (baseRc : BaseOp → Int)
    (p o n src : Nat) (md flag pop : Bool)
    (hw : (bdev_part_remap_dif ctxInitRc remapRc flag (o % U32) ((o + p) % U32)).rc = 0) :
    (spdk_bdev_part_submit_request_ext_m ctxInitRc remapRc baseRc p
      ⟨.read, o, n, src, md, flag, pop⟩).issued = some (.readv (o + p) n) ∧
    (spdk_bdev_part_submit_request_ext_m ctxInitRc remapRc baseRc p
      ⟨.write, o, n, src, md, flag, pop⟩).issued = some (.writev (o + p) n) ∧
    (spdk_bdev_part_submit_request_ext_m ctxInitRc remapRc baseRc p
      ⟨.write_zeroes, o, n, src, md, flag, pop⟩).issued = some (.write_zeroes (o + p) n) ∧
    (spdk_bdev_part_submit_request_ext_m ctxInitRc remapRc baseRc p
      ⟨.unmap, o, n, src, md, flag, pop⟩).issued = some (.unmap (o + p) n) ∧
    (spdk_bdev_part_submit_request_ext_m ctxInitRc remapRc baseRc p
      ⟨.flush, o, n, src, md, flag, pop⟩).issued = some (.flush (o + p) n) ∧
    (spdk_bdev_part_submit_request_ext_m ctxInitRc remapRc baseRc p
      ⟨.zcopy, o, n, src, md, flag, pop⟩).issued = some (.zcopy_start (o + p) n pop) ∧
    (spdk_bdev_part_submit_request_ext_m ctxInitRc remapRc baseRc p
      ⟨.compare, o, n, src, false, flag, pop⟩).issued = some (.comparev (o + p) n) ∧
    (spdk_bdev_part_submit_request_ext_m ctxInitRc remapRc baseRc p
      ⟨.compare, o, n, src, true, flag, pop⟩).issued = some (.comparev_with_md (o + p) n) ∧
    (spdk_bdev_part_submit_request_ext_m ctxInitRc remapRc baseRc p
      ⟨.compare_and_write, o, n, src, md, flag, pop⟩).issued
        = some (.comparev_and_writev (o + p) n) ∧
    (spdk_bdev_part_submit_request_ext_m ctxInitRc remapRc baseRc p
      ⟨.copy, o, n, src, md, flag, pop⟩).issued = some (.copy (o + p) (src + p) n) ∧
    (spdk_bdev_part_submit_request_ext_m ctxInitRc remapRc baseRc p
      ⟨.reset, o, n, src, md, flag, pop⟩).issued = some .reset := by
  refine ⟨rfl, ?_, rfl, rfl, rfl, rfl, rfl, rfl, rfl, rfl, rfl⟩
  simp [spdk_bdev_part_submit_request_ext_m, hw]

/-- Witness for C1 at concrete inputs. -/
theorem c1_offset_translation_witness :
    (spdk_bdev_part_submit_request_ext_m (fun _ => 0) (fun _ _ => 0) (fun _ => 0) 400
      ⟨.read, 3, 10, 0, false, true, false⟩).issued = some (.readv 403 10) ∧
    (spdk_bdev_part_submit_request_ext_m (fun _ => 0) (fun _ _ => 0) (fun _ => 0) 400
      ⟨.write, 3, 10, 0, false, true, false⟩).issued = some (.writev 403 10) ∧
    (spdk_bdev_part_submit_request_ext_m (fun _ => 0) (fun _ _ => 0) (fun _ => 0) 400
      ⟨.write_zeroes, 3, 10, 0, false, true, false⟩).issued = some (.write_zeroes 403 10) ∧
    (spdk_bdev_part_submit_request_ext_m (fun _ => 0) (fun _ _ => 0) (fun _ => 0) 400
      ⟨.unmap, 3, 10, 0, false, true, false⟩).issued = some (.unmap 403 10) ∧
    (spdk_bdev_part_submit_request_ext_m (fun _ => 0) (fun _ _ => 0) (fun _ => 0) 400
      ⟨.flush, 3, 10, 0, false, true, false⟩).issued = some (.flush 403 10) ∧
    (spdk_bdev_part_submit_request_ext_m (fun _ => 0) (fun _ _ => 0) (fun _ => 0) 400
      ⟨.zcopy, 3, 10, 0, false, true, false⟩).issued = some (.zcopy_start 403 10 false) ∧
    (spdk_bdev_part_submit_request_ext_m (fun _ => 0) (fun _ _ => 0) (fun _ => 0) 400
      ⟨.compare, 3, 10, 0, false, true, false⟩).issued = some (.comparev 403 10) ∧
    (spdk_bdev_part_submit_request_ext_m (fun _ => 0) (fun _ _ => 0) (fun _ => 0) 400
      ⟨.compare, 3, 10, 0, true, true, false⟩).issued = some (.comparev_with_md 403 10) ∧
    (spdk_bdev_part_submit_request_ext_m (fun _ => 0) (fun _ _ => 0) (fun _ => 0) 400
      ⟨.compare_and_write, 3, 10, 0, false, true, false⟩).issued
        = some (.comparev_and_writev 403 10) ∧
    (spdk_bdev_part_submit_request_ext_m (fun _ => 0) (fun _ _ => 0) (fun _ => 0) 400
      ⟨.copy, 3, 10, 7, false, true, false⟩).issued = some (.copy 403 407 10) ∧
    (spdk_bdev_part_submit_request_ext_m (fun _ => 0) (fun _ _ => 0) (fun _ => 0) 400
      ⟨.reset, 3, 10, 7, false, true, false⟩).issued = some .reset :=
  c1_offset_translation (fun _ => 0) (fun _ _ => 0) (fun _ => 0) 400 3 10 7 false true false
    (by decide)

/-- C7: the partition capability query reports false for the NVMe
passthrough types regardless of the base, and delegates every other type
to the base device capability query. -/
theorem c7_capability_narrowing (baseSupported : SpdkBdevIoType → Bool) :
    bdev_part_io_type_supported_m baseSupported .nvme_admin = false ∧
    bdev_part_io_type_supported_m baseSupported .nvme_io_cmd = false ∧
    bdev_part_io_type_supported_m baseSupported .nvme_io_md = false ∧
    ∀ t : SpdkBdevIoType, t ≠ .nvme_admin → t ≠ .nvme_io_cmd → t ≠ .nvme_io_md →
      bdev_part_io_type_supported_m baseSupported t = baseSupported t := by
  refine ⟨rfl, rfl, rfl, ?_⟩
  intro t h1 h2 h3
  cases t <;> first | rfl | simp_all

/-- Witness for C7 at a base that supports everything. -/
theorem c7_capability_narrowing_witness :
    bdev_part_io_type_supported_m (fun _ => true) .nvme_admin = false ∧
    bdev_part_io_type_supported_m (fun _ => true) .read = true :=
  ⟨(c7_capability_narrowing (fun _ => true)).1,
   (c7_capability_narrowing (fun _ => true)).2.2.2 .read
     (by decide) (by decide) (by decide)⟩

/-- C8: a request whose type is not one of the recognized types is
rejected synchronously with the failure status and nothing is issued to
the base device. -/
theorem c8_unknown_type_rejected
    (ctxInitRc : Nat → Int) (remapRc : Nat → Nat → Int) (baseRc : BaseOp → Int)
    (p : Nat) (bio : BdevIoRec)
    (h : handledIoType bio.ioType = false) :
    (spdk_bdev_part_submit_request_ext_m ctxInitRc remapRc baseRc p bio).issued = none ∧
    (spdk_bdev_part_submit_request_ext_m ctxInitRc remapRc baseRc p bio).ret
      = SPDK_BDEV_IO_STATUS_FAILED ∧
    (spdk_bdev_part_submit_request_ext_m ctxInitRc remapRc baseRc p bio).difCall = none := by
  obtain ⟨t, o, n, src, md, flag, pop⟩ := bio
  cases t <;> simp_all [handledIoType, spdk_bdev_part_submit_request_ext_m]

/-- Witness for C8 at an NVMe admin passthrough request. -/
theorem c8_unknown_type_rejected_witness :
    (spdk_bdev_part_submit_request_ext_m (fun _ => 0) (fun _ _ => 0) (fun _ => 0) 400
      ⟨.nvme_admin, 3, 10, 0, false, false, false⟩).issued = none ∧
    (spdk_bdev_part_submit_request_ext_m (fun _ => 0) (fun _ _ => 0) (fun _ => 0) 400
      ⟨.nvme_admin, 3, 10, 0, false, false, false⟩).ret = SPDK_BDEV_IO_STATUS_FAILED ∧
    (spdk_bdev_part_submit_request_ext_m (fun _ => 0) (fun _ _ => 0) (fun _ => 0) 400
      ⟨.nvme_admin, 3, 10, 0, false, false, false⟩).difCall = none :=
  c8_unknown_type_rejected (fun _ => 0) (fun _ _ => 0) (fun _ => 0) 400
    ⟨.nvme_admin, 3, 10, 0, false, false, false⟩ (by decide)

/-- C6: a reference-tag remap failure on a write makes the submit path
return the failure status with nothing issued to the base device; a
remap failure on a read completion flips the success flag to false while
the base I/O is still freed; and the base I/O is freed after completion
bridging for every request regardless of outcome. -/
theorem c6_remap_failure_handling
    (ctxInitRc : Nat → Int) (remapRc : Nat → Nat → Int) (baseRc : BaseOp → Int)
    (p o n src bo po : Nat) (md flag pop split : Bool)
    (hfailw : (bdev_part_remap_dif ctxInitRc remapRc flag (o % U32) ((o + p) % U32)).rc ≠ 0)
    (hfailr : (bdev_part_remap_dif ctxInitRc remapRc flag (bo % U32) (po % U32)).rc ≠ 0) :
    ((spdk_bdev_part_submit_request_ext_m ctxInitRc remapRc baseRc p
        ⟨.write, o, n, src, md, flag, pop⟩).issued = none ∧
     (spdk_bdev_part_submit_request_ext_m ctxInitRc remapRc baseRc p
        ⟨.write, o, n, src, md, flag, pop⟩).ret = SPDK_BDEV_IO_STATUS_FAILED) ∧
    ((bdev_part_complete_io_m ctxInitRc remapRc .read bo po flag true split).success_out
        = false ∧
     (bdev_part_complete_io_m ctxInitRc remapRc .read bo po flag true split).freed = true) ∧
    (∀ (t : SpdkBdevIoType) (bo2 po2 : Nat) (fl2 su2 sp2 : Bool),
      (bdev_part_complete_io_m ctxInitRc remapRc t bo2 po2 fl2 su2 sp2).freed = true) := by
  refine ⟨⟨?_, ?_⟩, ⟨?_, rfl⟩, ?_⟩
  · simp [spdk_bdev_part_submit_request_ext_m, hfailw]
  · simp [spdk_bdev_part_submit_request_ext_m, hfailw]
  · simp [bdev_part_complete_io_m, hfailr]
  · intro t bo2 po2 fl2 su2 sp2
    cases t <;> rfl

/-- Witness for C6 with a DIF context init primitive that fails. -/
theorem c6_remap_failure_handling_witness :
    ((spdk_bdev_part_submit_request_ext_m (fun _ => -1) (fun _ _ => 0) (fun _ => 0) 400
        ⟨.write, 3, 10, 0, false, true, false⟩).issued = none ∧
     (spdk_bdev_part_submit_request_ext_m (fun _ => -1) (fun _ _ => 0) (fun _ => 0) 400
        ⟨.write, 3, 10, 0, false, true, false⟩).ret = SPDK_BDEV_IO_STATUS_FAILED) ∧
    ((bdev_part_complete_io_m (fun _ => -1) (fun _ _ => 0) .read 403 3 true true false).success_out
        = false ∧
     (bdev_part_complete_io_m (fun _ => -1) (fun _ _ => 0) .read 403 3 true true false).freed
        = true) ∧
    (∀ (t : SpdkBdevIoType) (bo2 po2 : Nat) (fl2 su2 sp2 : Bool),
      (bdev_part_complete_io_m (fun _ => -1) (fun _ _ => 0) t bo2 po2 fl2 su2 sp2).freed
        = true) :=
  c6_remap_failure_handling (fun _ => -1) (fun _ _ => 0) (fun _ => 0) 400 3 10 0 403 3
    false true false false (by decide) (by decide)

/-- C10: bdev_part_remap_dif receives the offsets as 32-bit values, so
both the submit write path and the read completion path hand it the
64-bit block offsets reduced mod 2^32, the DIF context is seeded with
that reduced value, and for an offset of at least 2^32 the reduced value
differs from the true offset. -/
theorem c10_dif_offset_truncation
    (ctxInitRc : Nat → Int) (remapRc : Nat → Nat → Int) (baseRc : BaseOp → Int)
    (p o n src bo po : Nat) (md pop split : Bool)
    (ho : U32 ≤ o) :
    (spdk_bdev_part_submit_request_ext_m ctxInitRc remapRc baseRc p
      ⟨.write, o, n, src, md, true, pop⟩).difCall
        = some (bdev_part_remap_dif ctxInitRc remapRc true (o % U32) ((o + p) % U32)) ∧
    (bdev_part_remap_dif ctxInitRc remapRc true (o % U32) ((o + p) % U32)).initSeed
        = some (o % U32) ∧
    (bdev_part_complete_io_m ctxInitRc remapRc .read bo po true true split).difCall
        = some (bdev_part_remap_dif ctxInitRc remapRc true (bo % U32) (po % U32)) ∧
    o % U32 ≠ o := by
  refine ⟨?_, ?_, ?_, ?_⟩
  · simp only [spdk_bdev_part_submit_request_ext_m]
    split <;> rfl
  · unfold bdev_part_remap_dif
    split
    · simp_all
    · split <;> rfl
  · rfl
  · have hlt : o % U32 < U32 := Nat.mod_lt _ (by decide)
    omega

/-- Witness for C10 at offset 2^32 + 5. -/
theorem c10_dif_offset_truncation_witness :
    (spdk_bdev_part_submit_request_ext_m (fun _ => 0) (fun _ _ => 0) (fun _ => 0) 400
      ⟨.write, 4294967301, 10, 0, false, true, false⟩).difCall
        = some (bdev_part_remap_dif (fun _ => 0) (fun _ _ => 0) true
                  (4294967301 % U32) ((4294967301 + 400) % U32)) ∧
    (bdev_part_remap_dif (fun _ => 0) (fun _ _ => 0) true
      (4294967301 % U32) ((4294967301 + 400) % U32)).initSeed = some (4294967301 % U32) ∧
    (bdev_part_complete_io_m (fun _ => 0) (fun _ _ => 0) .read 4294967301 5 true true
      false).difCall
        = some (bdev_part_remap_dif (fun _ => 0) (fun _ _ => 0) true
                  (4294967301 % U32) (5 % U32)) ∧
    4294967301 % U32 ≠ 4294967301 :=
  c10_dif_offset_truncation (fun _ => 0) (fun _ _ => 0) (fun _ => 0) 400 4294967301 10 0
    4294967301 5 false false false (by decide)

/-- C9: two construct-options memory images that declare the same
opts_size and agree on the first opts_size bytes copy to identical
destination records, and a field whose offset plus size exceeds the
declared size is left zeroed in the destination. -/
theorem c9_opts_copy_prefix (m1 m2 : Nat → Nat)
    (hsz : readOptsSizeLE m1 = readOptsSizeLE m2)
    (hag : ∀ i, i < readOptsSizeLE m1 → m1 i = m2 i) :
    part_construct_opts_copy_m m1 = part_construct_opts_copy_m m2 ∧
    (readOptsSizeLE m1 < 8 + 16 →
      (part_construct_opts_copy_m m1).uuid = List.replicate 16 0) := by
  constructor
  · unfold part_construct_opts_copy_m
    rw [← hsz]
    by_cases h : 8 + 16 ≤ readOptsSizeLE m1
    · simp only [h, if_pos]
      congr 1
      apply List.map_congr_left
      intro a ha
      have ha16 : a < 16 := List.mem_range.mp ha
      exact hag (8 + a) (by omega)
    · simp [h]
  · intro h
    unfold part_construct_opts_copy_m
    simp [show ¬ (8 + 16 ≤ readOptsSizeLE m1) from by omega]

/-- Witness for C9: two images that agree on the declared 24 bytes but
differ beyond them, and an image declaring a size too small for the uuid
field. -/
theorem c9_opts_copy_prefix_witness :
    part_construct_opts_copy_m (fun i => if i = 0 then 24 else if i < 8 then 0 else if i < 24 then i else 77)
      = part_construct_opts_copy_m (fun i => if i = 0 then 24 else if i < 8 then 0 else if i < 24 then i else 99) ∧
    (readOptsSizeLE (fun i => if i = 0 then 24 else if i < 8 then 0 else if i < 24 then i else 77) < 8 + 16 →
      (part_construct_opts_copy_m
        (fun i => if i = 0 then 24 else if i < 8 then 0 else if i < 24 then i else 77)).uuid
          = List.replicate 16 0) :=
  c9_opts_copy_prefix (fun i => if i = 0 then 24 else if i < 8 then 0 else if i < 24 then i else 77)
    (fun i => if i = 0 then 24 else if i < 8 then 0 else if i < 24 then i else 99)
    (by decide) (by decide)

/-- C5 counterexample: with an open descriptor, a recorded affinity
thread different from the calling thread, and a free callback supplied,
spdk_bdev_part_base_free dispatches the close as a fire-and-forget
message and runs the free callback right after the dispatch, so there is
a valid execution trace in which the free callback runs before the close
has completed: the claim that the free callback runs only after the
close has completed is false. -/
theorem c5_counterexample :
    ¬ (∀ t ∈ spdk_bdev_part_base_free_traces true true false true,
        closeBeforeFree false t = true) := by decide

/-- C5 amended: if the caller is not on the affinity thread the close is
dispatched as a message to that thread and the free callback runs only
after that dispatch (not necessarily after the close has completed);
when the close runs inline it completes before the free callback; and
the base record is released only after the free callback has run. -/
theorem c5_base_free_ordering (hasDesc hasThread sameThread hasFreeFn : Bool) :
    ∀ t ∈ spdk_bdev_part_base_free_traces hasDesc hasThread sameThread hasFreeFn,
      noFreeAfterRelease false t = true ∧
      (hasDesc = true → dispatchBeforeFree false t = true) ∧
      ((hasDesc = true ∧ (hasThread = true → sameThread = true)) →
        closeBeforeFree false t = true) := by
  revert hasDesc hasThread sameThread hasFreeFn
  decide

/-- Witness for C5 amended, on the trace in which the dispatched close
executes only after the caller has finished. -/
theorem c5_base_free_ordering_witness :
    noFreeAfterRelease false
      [FreeEv.sendCloseMsg, FreeEv.freeCb, FreeEv.releaseRecord, FreeEv.closeExec] = true ∧
    (true = true → dispatchBeforeFree false
      [FreeEv.sendCloseMsg, FreeEv.freeCb, FreeEv.releaseRecord, FreeEv.closeExec] = true) ∧
    ((true = true ∧ (true = true → false = true)) → closeBeforeFree false
      [FreeEv.sendCloseMsg, FreeEv.freeCb, FreeEv.releaseRecord, FreeEv.closeExec] = true) :=
  c5_base_free_ordering true true false true
    [FreeEv.sendCloseMsg, FreeEv.freeCb, FreeEv.releaseRecord, FreeEv.closeExec]
    (by decide)

/-- When both string allocations succeed and no explicit UUID is given,
the partition UUID set by spdk_bdev_part_construct_ext is exactly the
namespace hash of the base UUID bytes followed by the little-endian
offset and length. -/
theorem construct_uuid_eq (env : ConstructEnv)
    (sha1uuid : List Nat → List Nat → Option (List Nat))
    (baseRef : Nat) (baseClaimed baseHeld : Bool) (baseUuid : List Nat) (o n : Nat)
    (hn : env.nameAllocOk = true) (hp : env.productAllocOk = true) :
    (spdk_bdev_part_construct_ext_m env sha1uuid baseRef baseClaimed baseHeld
        baseUuid o n nullUuid).uuid
      = sha1uuid bdevPartNamespaceUuidBytes (baseUuid ++ le64 o ++ le64 n) := by
  unfold spdk_bdev_part_construct_ext_m
  simp only [hn, hp, Bool.true_eq_false, if_false, ne_eq, not_true_eq_false, reduceIte]
  cases h : sha1uuid bdevPartNamespaceUuidBytes (baseUuid ++ le64 o ++ le64 n) with
  | none => simp [h]
  | some u =>
      simp only [h]
      split
      · rfl
      · split <;> rfl

/-- C3: with no explicit identifier, the partition UUID is the
namespace-based hash (with the fixed hardcoded namespace UUID) of the
byte sequence base-UUID, offset_blocks, num_blocks; two constructions
with the same base UUID and the same offset and length yield the same
UUID; and a hash-primitive error fails the construction with both name
strings freed. -/
theorem c3_uuid_derivation
    (sha1uuid : List Nat → List Nat → Option (List Nat))
    (env1 env2 : ConstructEnv) (baseRef1 baseRef2 : Nat)
    (bc1 bc2 bh1 bh2 : Bool) (baseUuid : List Nat) (o n : Nat)
    (h1 : env1.nameAllocOk = true) (h2 : env1.productAllocOk = true)
    (h3 : env2.nameAllocOk = true) (h4 : env2.productAllocOk = true) :
    (spdk_bdev_part_construct_ext_m env1 sha1uuid baseRef1 bc1 bh1 baseUuid o n
        nullUuid).uuid
      = sha1uuid bdevPartNamespaceUuidBytes (baseUuid ++ le64 o ++ le64 n) ∧
    (spdk_bdev_part_construct_ext_m env1 sha1uuid baseRef1 bc1 bh1 baseUuid o n
        nullUuid).uuid
      = (spdk_bdev_part_construct_ext_m env2 sha1uuid baseRef2 bc2 bh2 baseUuid o n
          nullUuid).uuid ∧
    (sha1uuid bdevPartNamespaceUuidBytes (baseUuid ++ le64 o ++ le64 n) = none →
      (spdk_bdev_part_construct_ext_m env1 sha1uuid baseRef1 bc1 bh1 baseUuid o n
          nullUuid).rc = -1 ∧
      (spdk_bdev_part_construct_ext_m env1 sha1uuid baseRef1 bc1 bh1 baseUuid o n
          nullUuid).nameLive = false ∧
      (spdk_bdev_part_construct_ext_m env1 sha1uuid baseRef1 bc1 bh1 baseUuid o n
          nullUuid).productLive = false) := by
  refine ⟨construct_uuid_eq env1 sha1uuid baseRef1 bc1 bh1 baseUuid o n h1 h2, ?_, ?_⟩
  · rw [construct_uuid_eq env1 sha1uuid baseRef1 bc1 bh1 baseUuid o n h1 h2,
        construct_uuid_eq env2 sha1uuid baseRef2 bc2 bh2 baseUuid o n h3 h4]
  · intro hnone
    unfold spdk_bdev_part_construct_ext_m
    simp only [List.append_assoc] at hnone
    simp [h1, h2, hnone]

/-- Witness for C3 with a hash primitive that succeeds (first two
conjuncts meaningful) and the error conjunct vacuous. -/
theorem c3_uuid_derivation_witness :
    (spdk_bdev_part_construct_ext_m ⟨true, true, 0, 0⟩
        (fun _ _ => some (List.replicate 16 3)) 0 false false (List.replicate 16 9)
        400 600 nullUuid).uuid
      = (fun _ _ => some (List.replicate 16 3)) bdevPartNamespaceUuidBytes
          (List.replicate 16 9 ++ le64 400 ++ le64 600) ∧
    (spdk_bdev_part_construct_ext_m ⟨true, true, 0, 0⟩
        (fun _ _ => some (List.replicate 16 3)) 0 false false (List.replicate 16 9)
        400 600 nullUuid).uuid
      = (spdk_bdev_part_construct_ext_m ⟨true, true, -1, -1⟩
          (fun _ _ => some (List.replicate 16 3)) 5 true true (List.replicate 16 9)
          400 600 nullUuid).uuid ∧
    ((fun _ _ => some (List.replicate 16 3)) bdevPartNamespaceUuidBytes
        (List.replicate 16 9 ++ le64 400 ++ le64 600) = none →
      (spdk_bdev_part_construct_ext_m ⟨true, true, 0, 0⟩
          (fun _ _ => some (List.replicate 16 3)) 0 false false (List.replicate 16 9)
          400 600 nullUuid).rc = -1 ∧
      (spdk_bdev_part_construct_ext_m ⟨true, true, 0, 0⟩
          (fun _ _ => some (List.replicate 16 3)) 0 false false (List.replicate 16 9)
          400 600 nullUuid).nameLive = false ∧
      (spdk_bdev_part_construct_ext_m ⟨true, true, 0, 0⟩
          (fun _ _ => some (List.replicate 16 3)) 0 false false (List.replicate 16 9)
          400 600 nullUuid).productLive = false) :=
  c3_uuid_derivation (fun _ _ => some (List.replicate 16 3)) ⟨true, true, 0, 0⟩
    ⟨true, true, -1, -1⟩ 0 5 false true false true (List.replicate 16 9) 400 600
    rfl rfl rfl rfl

/-- C4: when spdk_bdev_part_construct_ext fails after incrementing the
base reference count (claim failure or registration failure), then
before returning the count is decremented back, any claim taken by this
construction is released, the name and product-name buffers are freed,
and the base is left in the state it had before the call.  The two
invariant hypotheses record that on a live base the claimed flag is set
exactly when at least one partition holds a reference and that the
module claim is held exactly when the claimed flag is set. -/
theorem c4_unwind_on_failure (env : ConstructEnv)
    (sha1uuid : List Nat → List Nat → Option (List Nat))
    (baseRef : Nat) (baseClaimed baseHeld : Bool) (baseUuid : List Nat)
    (o n : Nat) (optsUuid u : List Nat)
    (hinv0 : baseClaimed = false → baseRef = 0)
    (hinv1 : baseClaimed = true → 0 < baseRef)
    (hheld : baseHeld = baseClaimed)
    (hn : env.nameAllocOk = true) (hp : env.productAllocOk = true)
    (hu : (if optsUuid ≠ nullUuid then some optsUuid
           else sha1uuid bdevPartNamespaceUuidBytes
                  (baseUuid ++ le64 o ++ le64 n)) = some u)
    (hfail : (baseClaimed = false ∧ env.claimRc ≠ 0) ∨ env.registerRc ≠ 0) :
    (spdk_bdev_part_construct_ext_m env sha1uuid baseRef baseClaimed baseHeld
        baseUuid o n optsUuid).rc ≠ 0 ∧
    (spdk_bdev_part_construct_ext_m env sha1uuid baseRef baseClaimed baseHeld
        baseUuid o n optsUuid).ref = baseRef ∧
    (spdk_bdev_part_construct_ext_m env sha1uuid baseRef baseClaimed baseHeld
        baseUuid o n optsUuid).claimed = baseClaimed ∧
    (spdk_bdev_part_construct_ext_m env sha1uuid baseRef baseClaimed baseHeld
        baseUuid o n optsUuid).moduleClaimHeld = baseHeld ∧
    (spdk_bdev_part_construct_ext_m env sha1uuid baseRef baseClaimed baseHeld
        baseUuid o n optsUuid).nameLive = false ∧
    (spdk_bdev_part_construct_ext_m env sha1uuid baseRef baseClaimed baseHeld
        baseUuid o n optsUuid).productLive = false ∧
    (spdk_bdev_part_construct_ext_m env sha1uuid baseRef baseClaimed baseHeld
        baseUuid o n optsUuid).inTailq = false ∧
    (spdk_bdev_part_construct_ext_m env sha1uuid baseRef baseClaimed baseHeld
        baseUuid o n optsUuid).ioDevRegistered = false := by
  unfold spdk_bdev_part_construct_ext_m
  simp only [hn, hp, Bool.true_eq_false, if_false, reduceIte]
  rw [hu]
  by_cases hc : baseClaimed = false ∧ ¬ env.claimRc = 0
  · simp [hc]
  · have hreg : env.registerRc ≠ 0 := by
      rcases hfail with hl | hr
      · exact absurd ⟨hl.1, hl.2⟩ hc
      · exact hr
    cases baseClaimed with
    | false =>
        have h0 : baseRef = 0 := hinv0 rfl
        subst h0
        simp_all
    | true =>
        have h1 : 0 < baseRef := hinv1 rfl
        have h2 : ¬ (baseRef + 1 - 1 = 0) := by omega
        simp_all

/-- Witness for C4 at a claim failure on a fresh base. -/
theorem c4_unwind_on_failure_witness :
    (spdk_bdev_part_construct_ext_m ⟨true, true, -1, 0⟩
        (fun _ _ => some (List.replicate 16 3)) 0 false false (List.replicate 16 9)
        400 600 nullUuid).rc ≠ 0 ∧
    (spdk_bdev_part_construct_ext_m ⟨true, true, -1, 0⟩
        (fun _ _ => some (List.replicate 16 3)) 0 false false (List.replicate 16 9)
        400 600 nullUuid).ref = 0 ∧
    (spdk_bdev_part_construct_ext_m ⟨true, true, -1, 0⟩
        (fun _ _ => some (List.replicate 16 3)) 0 false false (List.replicate 16 9)
        400 600 nullUuid).claimed = false ∧
    (spdk_bdev_part_construct_ext_m ⟨true, true, -1, 0⟩
        (fun _ _ => some (List.replicate 16 3)) 0 false false (List.replicate 16 9)
        400 600 nullUuid).moduleClaimHeld = false ∧
    (spdk_bdev_part_construct_ext_m ⟨true, true, -1, 0⟩
        (fun _ _ => some (List.replicate 16 3)) 0 false false (List.replicate 16 9)
        400 600 nullUuid).nameLive = false ∧
    (spdk_bdev_part_construct_ext_m ⟨true, true, -1, 0⟩
        (fun _ _ => some (List.replicate 16 3)) 0 false false (List.replicate 16 9)
        400 600 nullUuid).productLive = false ∧
    (spdk_bdev_part_construct_ext_m ⟨true, true, -1, 0⟩
        (fun _ _ => some (List.replicate 16 3)) 0 false false (List.replicate 16 9)
        400 600 nullUuid).inTailq = false ∧
    (spdk_bdev_part_construct_ext_m ⟨true, true, -1, 0⟩
        (fun _ _ => some (List.replicate 16 3)) 0 false false (List.replicate 16 9)
        400 600 nullUuid).ioDevRegistered = false :=
  c4_unwind_on_failure ⟨true, true, -1, 0⟩ (fun _ _ => some (List.replicate 16 3))
    0 false false (List.replicate 16 9) 400 600 nullUuid (List.replicate 16 3)
    (fun _ => rfl) (fun h => absurd h (by decide)) rfl rfl rfl (by decide)
    (Or.inl ⟨rfl, by decide⟩)

/-- One application peeled off the end of an iteration. -/
theorem iterN_last (f : BaseLife → BaseLife) (n : Nat) :
    ∀ s : BaseLife, iterN f (n + 1) s = f (iterN f n s) := by
  induction n with
  | zero => intro s; rfl
  | succ k ih =>
      intro s
      show iterN f (k + 1) (f s) = _
      rw [ih (f s)]
      rfl

/-- The state after n + 1 successful constructions: the reference count
grows by n + 1, the claim is taken, and the close and free state of the
base is untouched. -/
theorem iter_construct_struct (n : Nat) : ∀ s : BaseLife,
    iterN construct_success_base (n + 1) s =
      { ref := s.ref + (n + 1), claimed := true, moduleClaimHeld := true,
        descOpen := s.descOpen, closeCount := s.closeCount,
        baseFreed := s.baseFreed } := by
  induction n with
  | zero => intro s; rfl
  | succ k ih =>
      intro s
      show iterN construct_success_base (k + 1) (construct_success_base s) = _
      rw [ih (construct_success_base s)]
      simp only [construct_success_base, BaseLife.mk.injEq, and_true, true_and]
      omega

/-- As long as fewer destruction completions have run than the base has
references, each bdev_part_free_cb only decrements the reference count
and the descriptor stays open. -/
theorem iter_free_mid (j : Nat) : ∀ s : BaseLife, j < s.ref →
    iterN bdev_part_free_cb_m j s = { s with ref := s.ref - j } := by
  induction j with
  | zero => intro s h; rfl
  | succ k ih =>
      intro s h
      have h1 : s.ref ≠ 0 := by omega
      have h2 : ¬ (s.ref - 1 = 0) := by omega
      have hfree : bdev_part_free_cb_m s = { s with ref := s.ref - 1 } := by
        unfold bdev_part_free_cb_m
        simp [h1, h2]
      show iterN bdev_part_free_cb_m k (bdev_part_free_cb_m s) = _
      rw [hfree, ih { s with ref := s.ref - 1 } (by show k < s.ref - 1; omega)]
      simp only [BaseLife.mk.injEq, and_true, true_and]
      omega

/-- C2: each successful construction increments the base reference count
and each destruction completion decrements it; after N constructions
from the fresh base state followed by j < N destruction completions the
underlying handle has never been closed and the base is not freed, and
after the N-th destruction completion the handle has been closed exactly
once and the base is freed, the count having returned to zero. -/
theorem c2_refcount_lifecycle (N : Nat) (hN : 0 < N) :
    (∀ s : BaseLife, (construct_success_base s).ref = s.ref + 1) ∧
    (∀ s : BaseLife, 0 < s.ref → (bdev_part_free_cb_m s).ref = s.ref - 1) ∧
    ((iterN construct_success_base N baseLifeInitial).ref = N ∧
     (iterN construct_success_base N baseLifeInitial).closeCount = 0 ∧
     (iterN construct_success_base N baseLifeInitial).baseFreed = false) ∧
    (∀ j, j < N →
      (iterN bdev_part_free_cb_m j
        (iterN construct_success_base N baseLifeInitial)).closeCount = 0 ∧
      (iterN bdev_part_free_cb_m j
        (iterN construct_success_base N baseLifeInitial)).baseFreed = false ∧
      (iterN bdev_part_free_cb_m j
        (iterN construct_success_base N baseLifeInitial)).ref = N - j) ∧
    ((iterN bdev_part_free_cb_m N
        (iterN construct_success_base N baseLifeInitial)).closeCount = 1 ∧
     (iterN bdev_part_free_cb_m N
        (iterN construct_success_base N baseLifeInitial)).baseFreed = true ∧
     (iterN bdev_part_free_cb_m N
        (iterN construct_success_base N baseLifeInitial)).ref = 0) := by
  obtain ⟨M, rfl⟩ : ∃ M, N = M + 1 := ⟨N - 1, by omega⟩
  have hsc := iter_construct_struct M baseLifeInitial
  refine ⟨?_, ?_, ?_, ?_, ?_⟩
  · intro s; rfl
  · intro s hs
    have h1 : s.ref ≠ 0 := by omega
    unfold bdev_part_free_cb_m
    simp only [h1, if_false, reduceIte]
    split
    · simp; omega
    · rfl
  · rw [hsc]; exact ⟨by simp [baseLifeInitial], rfl, rfl⟩
  · intro j hj
    rw [hsc, iter_free_mid j _
      (by show j < baseLifeInitial.ref + (M + 1); simp [baseLifeInitial]; omega)]
    refine ⟨rfl, rfl, ?_⟩
    show baseLifeInitial.ref + (M + 1) - j = M + 1 - j
    simp [baseLifeInitial]
  · have hmid : iterN bdev_part_free_cb_m M
        (iterN construct_success_base (M + 1) baseLifeInitial)
        = { ref := 1, claimed := true, moduleClaimHeld := true, descOpen := true,
            closeCount := 0, baseFreed := false } := by
      rw [hsc, iter_free_mid M _
        (by show M < baseLifeInitial.ref + (M + 1); simp [baseLifeInitial])]
      simp [baseLifeInitial, BaseLife.mk.injEq]
    rw [iterN_last, hmid]
    exact ⟨rfl, rfl, rfl⟩

/-- Witness for C2 with two partitions: the handle is still open after
the first destruction completion and closed exactly once after the
second. -/
theorem c2_refcount_lifecycle_witness :
    (construct_success_base baseLifeInitial).ref = baseLifeInitial.ref + 1 ∧
    (iterN construct_success_base 2 baseLifeInitial).ref = 2 ∧
    (iterN bdev_part_free_cb_m 1
      (iterN construct_success_base 2 baseLifeInitial)).closeCount = 0 ∧
    (iterN bdev_part_free_cb_m 1
      (iterN construct_success_base 2 baseLifeInitial)).ref = 2 - 1 ∧
    (iterN bdev_part_free_cb_m 2
      (iterN construct_success_base 2 baseLifeInitial)).closeCount = 1 ∧
    (iterN bdev_part_free_cb_m 2
      (iterN construct_success_base 2 baseLifeInitial)).baseFreed = true ∧
    (iterN bdev_part_free_cb_m 2
      (iterN construct_success_base 2 baseLifeInitial)).ref = 0 :=
  ⟨(c2_refcount_lifecycle 2 (by decide)).1 baseLifeInitial,
   (c2_refcount_lifecycle 2 (by decide)).2.2.1.1,
   ((c2_refcount_lifecycle 2 (by decide)).2.2.2.1 1 (by decide)).1,
   ((c2_refcount_lifecycle 2 (by decide)).2.2.2.1 1 (by decide)).2.2,
   (c2_refcount_lifecycle 2 (by decide)).2.2.2.2.1,
   (c2_refcount_lifecycle 2 (by decide)).2.2.2.2.2.1,
   (c2_refcount_lifecycle 2 (by decide)).2.2.2.2.2.2⟩
